import Mathlib

/-!
Verification development for the resilient request execution and
checkpointing subsystem of the context-exporter repository
(src/Testing-Cursor/api_client.py, checkpoint_manager.py,
exporter_config.py).

Modelling conventions:
- Wall-clock time (Python time.time floats and ISO timestamps used only
  as opaque ordering data) is modelled as the rationals.
- Python dicts used as ordered key-value maps are modelled as association
  lists; dict assignment keeps the position of an existing key and appends
  a new key, matching CPython insertion-order semantics.
- Python sets of strings are modelled as duplicate-free lists built by
  insertion order (set.add appends when absent), which matches the only
  operations the source performs on them: add and membership.
- md5 hexdigest fingerprints are modelled by the fingerprinted data
  string itself (md5 treated as an injective fingerprint).
- Filesystem effects are reified as an explicit trace of operations
  (write, rename, unlink); a function returning an empty trace performs
  no durable write.
-/

namespace ContextExporter

/-- A reified filesystem side effect, in program order. -/
inductive FsOp where
  | write (path : String) (content : String)
  | rename (src : String) (dst : String)
  | unlink (path : String)
  deriving DecidableEq, Repr

/-! ## RateLimiter (api_client.py lines 26-58) -/

/-- RateLimitConfig from exporter_config.py lines 23-28. -/
structure RateLimitConfig where
  requests_per_second : ℚ
  burst_size : ℚ
  min_request_interval : ℚ
  deriving DecidableEq, Repr

/-- Mutable state of RateLimiter (api_client.py lines 29-35). -/
structure RateLimiter where
  tokens : ℚ
  max_tokens : ℚ
  refill_rate : ℚ
  last_refill : ℚ
  min_request_interval : ℚ
  deriving DecidableEq, Repr

/-- RateLimiter.__init__ (api_client.py lines 29-35): tokens and max_tokens
both start at burst_size; last_refill starts at the creation time. -/
def RateLimiter.init (config : RateLimitConfig) (now : ℚ) : RateLimiter :=
  { tokens := config.burst_size
    max_tokens := config.burst_size
    refill_rate := config.requests_per_second
    last_refill := now
    min_request_interval := config.min_request_interval }

/-- RateLimiter.acquire (api_client.py lines 37-58): refill from elapsed
time capped at max_tokens, then deduct only on the accepting path.
Returns the wait time and the updated limiter state. -/
def RateLimiter.acquire (rl : RateLimiter) (now : ℚ) (n : ℚ) : ℚ × RateLimiter :=
  let tokens1 := min rl.max_tokens (rl.tokens + (now - rl.last_refill) * rl.refill_rate)
  if n ≤ tokens1 then
    (0, { rl with tokens := tokens1 - n, last_refill := now })
  else
    let wait := max ((n - tokens1) / rl.refill_rate) rl.min_request_interval
    (wait, { rl with tokens := tokens1, last_refill := now })

/-- Run a sequence of acquire calls; each step is a (call time, requested
token count) pair. -/
def RateLimiter.runAcquires (rl : RateLimiter) (steps : List (ℚ × ℚ)) : RateLimiter :=
  steps.foldl (fun s p => (s.acquire p.1 p.2).2) rl

/-! ## CircuitBreaker (api_client.py lines 61-111) -/

/-- CircuitBreakerConfig from exporter_config.py lines 30-35. -/
structure CircuitBreakerConfig where
  failure_threshold : ℕ
  recovery_timeout : ℚ
  deriving DecidableEq, Repr

/-- CircuitBreaker.State (api_client.py lines 64-67). -/
inductive BreakerState where
  | CLOSED
  | OPEN
  | HALF_OPEN
  deriving DecidableEq, Repr

/-- Mutable state of CircuitBreaker (api_client.py lines 69-74). -/
structure CircuitBreaker where
  failure_count : ℕ
  last_failure_time : Option ℚ
  state : BreakerState
  deriving DecidableEq, Repr

/-- CircuitBreaker.__init__ (api_client.py lines 69-74). -/
def CircuitBreaker.init : CircuitBreaker :=
  { failure_count := 0, last_failure_time := none, state := .CLOSED }

/-- Result of one underlying HTTP attempt as observed by the breaker:
either success or an exception carrying an optional response status. -/
inductive HttpResult where
  | success
  | failure (status : Option ℕ)
  deriving DecidableEq, Repr

/-- Outcome of CircuitBreaker.call: the circuit-open exception raised
without invoking the wrapped function, or the invoked function's
success or failure (carrying the attempt's status). -/
inductive CallOutcome where
  | circuitOpen
  | succeeded
  | failed (status : Option ℕ)
  deriving DecidableEq, Repr

/-- CircuitBreaker._should_attempt_reset (api_client.py lines 93-96):
true when last_failure_time is set and the recovery timeout has elapsed. -/
def CircuitBreaker.shouldAttemptReset (cfg : CircuitBreakerConfig)
    (cb : CircuitBreaker) (now : ℚ) : Bool :=
  match cb.last_failure_time with
  | none => false
  | some t => decide (cfg.recovery_timeout ≤ now - t)

/-- CircuitBreaker._on_success (api_client.py lines 98-102). -/
def CircuitBreaker.onSuccess (cb : CircuitBreaker) : CircuitBreaker :=
  { cb with failure_count := 0, state := .CLOSED }

/-- CircuitBreaker._on_failure (api_client.py lines 104-111): increments
the count, stamps the failure time, and opens the circuit once the
count reaches the threshold (otherwise the state is left unchanged). -/
def CircuitBreaker.onFailure (cfg : CircuitBreakerConfig)
    (cb : CircuitBreaker) (now : ℚ) : CircuitBreaker :=
  let n := cb.failure_count + 1
  { failure_count := n
    last_failure_time := some now
    state := if cfg.failure_threshold ≤ n then .OPEN else cb.state }

/-- The invocation half of CircuitBreaker.call (api_client.py lines
85-91): the wrapped function runs and its success or failure updates the
breaker bookkeeping. -/
def CircuitBreaker.runInvocation (cfg : CircuitBreakerConfig)
    (cb : CircuitBreaker) (now : ℚ) (result : HttpResult) :
    CallOutcome × CircuitBreaker :=
  match result with
  | .success => (.succeeded, cb.onSuccess)
  | .failure st => (.failed st, cb.onFailure cfg now)

/-- CircuitBreaker.call (api_client.py lines 76-91): while OPEN, either
transition to HALF_OPEN when the recovery timeout has elapsed and invoke,
or raise the circuit-open exception without invoking the wrapped
function. The HttpResult argument is what the wrapped function would
produce were it invoked. -/
def CircuitBreaker.call (cfg : CircuitBreakerConfig) (cb : CircuitBreaker)
    (now : ℚ) (result : HttpResult) : CallOutcome × CircuitBreaker :=
  if cb.state = .OPEN then
    if cb.shouldAttemptReset cfg now then
      CircuitBreaker.runInvocation cfg { cb with state := .HALF_OPEN } now result
    else
      (.circuitOpen, cb)
  else
    CircuitBreaker.runInvocation cfg cb now result

/-- Run a streak of consecutive failing calls; each step is a (call time,
response status) pair. -/
def CircuitBreaker.runFailingCalls (cfg : CircuitBreakerConfig)
    (cb : CircuitBreaker) (calls : List (ℚ × Option ℕ)) : CircuitBreaker :=
  calls.foldl (fun s p => (CircuitBreaker.call cfg s p.1 (.failure p.2)).2) cb

/-! ## Association-list helpers for Python dict semantics -/

/-- Python dict lookup on an association list. -/
def lookupA {α : Type} (l : List (String × α)) (k : String) : Option α :=
  (l.find? (fun p => p.1 == k)).map (fun p => p.2)

/-- Python dict del; reachable states keep keys unique so removing every
binding of the key is the same as removing the single binding. -/
def eraseA {α : Type} (l : List (String × α)) (k : String) : List (String × α) :=
  l.filter (fun p => p.1 != k)

/-- Python dict assignment: an existing key keeps its position, a new key
is appended (CPython insertion-order semantics). -/
def updateA {α : Type} (l : List (String × α)) (k : String) (v : α) :
    List (String × α) :=
  if (l.find? (fun p => p.1 == k)).isSome then
    l.map (fun p => if p.1 == k then (k, v) else p)
  else
    l ++ [(k, v)]

/-! ## RequestCache (api_client.py lines 114-195) -/

/-- One value of the cache index mapping (api_client.py lines 190-194). -/
structure CacheEntry where
  timestamp : ℚ
  url : String
  method : String
  deriving DecidableEq, Repr

/-- The in-memory cache index: fingerprint to entry metadata. -/
def CacheIndex : Type := List (String × CacheEntry)

/-- In-memory and on-disk state of RequestCache (api_client.py lines
117-123). The files component is the payload file store of the cache
directory: path to stored JSON body. JSON serialization of payloads is
abstracted: the file stores the payload value itself, relying on the
round trip of the standard json library. -/
structure RequestCache where
  ttl : ℚ
  max_size : ℕ
  cache_index : CacheIndex
  files : List (String × String)

/-- Path of the cache index file inside the cache directory. -/
def indexPath : String := "index.json"

/-- Path of the payload file for a fingerprint (api_client.py line 157). -/
def payloadPath (key : String) : String := key ++ ".json"

/-- Insertion step for sorting parameter pairs by key, modelling the
sort_keys=True behaviour of json.dumps. -/
def insertParam (p : String × String) : List (String × String) → List (String × String)
  | [] => [p]
  | q :: rest => if p.1 < q.1 then p :: q :: rest else q :: insertParam p rest

/-- Sort parameter pairs by key (json.dumps with sort_keys=True). -/
def sortParams (ps : List (String × String)) : List (String × String) :=
  ps.foldr insertParam []

/-- Canonical serialization of a params dict: keys sorted, rendered in
a JSON-object shape (api_client.py line 146). -/
def canonParams (ps : List (String × String)) : String :=
  "\x7b" ++ String.intercalate ", "
    ((sortParams ps).map (fun p => "\x22" ++ p.1 ++ "\x22: " ++ p.2)) ++ "\x7d"

/-- RequestCache._get_cache_key (api_client.py lines 142-147): the
fingerprinted data string method:url, extended with the canonically
serialized params when params is truthy (None and the empty dict are
falsy in Python and add no suffix). The md5 hexdigest of this string is
modelled by the string itself (md5 treated as injective). -/
def RequestCache.getCacheKey (method : String) (url : String)
    (params : Option (List (String × String))) : String :=
  match params with
  | none => method ++ ":" ++ url
  | some [] => method ++ ":" ++ url
  | some ps => method ++ ":" ++ url ++ ":" ++ canonParams ps

/-- Injective rendering of one index entry; the JSON formatting of
json.dump is abstracted. -/
def serializeEntry (e : CacheEntry) : String :=
  toString e.timestamp ++ "|" ++ e.url ++ "|" ++ e.method

/-- Injective rendering of the cache index written by _save_index. -/
def serializeIndex (idx : CacheIndex) : String :=
  String.intercalate ";" (idx.map (fun p => p.1 ++ "=" ++ serializeEntry p.2))

/-- RequestCache._save_index (api_client.py lines 136-140): one direct
write of the serialized index to the index file, in place. -/
def RequestCache.saveIndexOps (idx : CacheIndex) : List FsOp :=
  [FsOp.write indexPath (serializeIndex idx)]

/-- RequestCache.get (api_client.py lines 149-169). Returns the cached
payload if the entry is fresh and its payload file is readable; on an
expired entry, or a fresh entry whose payload file is missing, deletes
the index entry and persists the index (the payload file is not
touched). Returns the payload, the new cache state, and the filesystem
trace. -/
def RequestCache.get (c : RequestCache) (now : ℚ) (method : String)
    (url : String) (params : Option (List (String × String))) :
    Option String × RequestCache × List FsOp :=
  let key := RequestCache.getCacheKey method url params
  match lookupA c.cache_index key with
  | none => (none, c, [])
  | some entry =>
    match (if now - entry.timestamp < c.ttl then lookupA c.files (payloadPath key) else none) with
    | some payload => (some payload, c, [])
    | none =>
      let idx := eraseA c.cache_index key
      (none, { c with cache_index := idx }, RequestCache.saveIndexOps idx)

/-- The first index entry with minimal timestamp, matching Python min
over dict keys (iteration order breaks ties in favour of the earlier
insertion). Returns none on an empty index, where Python min raises. -/
def oldestEntry (idx : CacheIndex) : Option (String × CacheEntry) :=
  idx.foldl
    (fun acc p =>
      match acc with
      | none => some p
      | some b => if p.2.timestamp < b.2.timestamp then some p else acc)
    none

/-- Final part of RequestCache.set after any eviction (api_client.py
lines 184-195): write the payload file, update the index binding, and
persist the index. -/
def RequestCache.finishSet (c : RequestCache) (now : ℚ) (key : String)
    (method : String) (url : String) (response : String) (ops0 : List FsOp) :
    RequestCache × List FsOp :=
  let files := updateA c.files (payloadPath key) response
  let idx := updateA c.cache_index key { timestamp := now, url := url, method := method }
  ({ c with files := files, cache_index := idx },
    ops0 ++ [FsOp.write (payloadPath key) response] ++ RequestCache.saveIndexOps idx)

/-- RequestCache.set (api_client.py lines 171-195): when the index is at
capacity, evict the oldest entry (unlinking its payload file) before
inserting. The error case models the ValueError Python min raises on an
empty index, reachable only with max_size = 0. -/
def RequestCache.set (c : RequestCache) (now : ℚ) (method : String)
    (url : String) (response : String)
    (params : Option (List (String × String))) :
    Except String (RequestCache × List FsOp) :=
  let key := RequestCache.getCacheKey method url params
  if c.max_size ≤ c.cache_index.length then
    match oldestEntry c.cache_index with
    | none => .error "min() arg is an empty sequence"
    | some oldest =>
      let c1 : RequestCache :=
        { c with cache_index := eraseA c.cache_index oldest.1
                 files := eraseA c.files (payloadPath oldest.1) }
      .ok (RequestCache.finishSet c1 now key method url response
            [FsOp.unlink (payloadPath oldest.1)])
  else
    .ok (RequestCache.finishSet c now key method url response [])

/-! ## ResilientAPIClient retry loop (api_client.py lines 262-326)

Only the attempt loop is modelled here: the cache-hit fast path returns
before the loop and the rate-limiter interaction only delays the start
of the loop, so neither affects the number of underlying HTTP
invocations once the loop is entered. Backoff and sleeps influence only
the wall-clock times of the attempts, which are supplied externally. -/

/-- RetryConfig from exporter_config.py lines 13-21 (only the fields the
attempt loop branches on). -/
structure RetryConfig where
  max_retries : ℕ
  retry_on_status_codes : List ℕ
  deriving DecidableEq, Repr

/-- Final outcome of ResilientAPIClient.request: a returned response, a
propagated circuit-open exception (not a RequestException, so it escapes
the except clause of the loop), a propagated HTTP error, or the
fall-through return None after an empty loop. -/
inductive ReqOutcome where
  | ok
  | circuitOpen
  | httpError (status : Option ℕ)
  | fellThrough
  deriving DecidableEq, Repr

/-- The attempt loop of ResilientAPIClient.request (api_client.py lines
284-326), with fuel equal to the number of remaining loop iterations
(max_retries + 1 - attempt, so the test attempt < max_retries is fuel
above one). results gives the underlying HTTP outcome of each attempt
index were it invoked, times the wall-clock time of each attempt.
Returns the number of underlying HTTP invocations actually performed,
the final outcome, and the breaker state. -/
def requestAttempts (rc : RetryConfig) (cc : CircuitBreakerConfig)
    (results : ℕ → HttpResult) (times : ℕ → ℚ) :
    ℕ → ℕ → CircuitBreaker → ℕ × ReqOutcome × CircuitBreaker
  | _, 0, cb => (0, .fellThrough, cb)
  | attempt, fuel + 1, cb =>
    match CircuitBreaker.call cc cb (times attempt) (results attempt) with
    | (.circuitOpen, cb1) => (0, .circuitOpen, cb1)
    | (.succeeded, cb1) => (1, .ok, cb1)
    | (.failed st, cb1) =>
      if fuel = 0 then
        (1, .httpError st, cb1)
      else
        match st with
        | some s =>
          if s ∈ rc.retry_on_status_codes then
            let r := requestAttempts rc cc results times (attempt + 1) fuel cb1
            (r.1 + 1, r.2.1, r.2.2)
          else
            (1, .httpError st, cb1)
        | none =>
          let r := requestAttempts rc cc results times (attempt + 1) fuel cb1
          (r.1 + 1, r.2.1, r.2.2)

/-- ResilientAPIClient.request attempt loop on a fresh client (the
breaker of a newly constructed client starts CLOSED with zero
failures). -/
def request (rc : RetryConfig) (cc : CircuitBreakerConfig)
    (results : ℕ → HttpResult) (times : ℕ → ℚ) : ℕ × ReqOutcome × CircuitBreaker :=
  requestAttempts rc cc results times 0 (rc.max_retries + 1) CircuitBreaker.init

/-! ## CheckpointManager (checkpoint_manager.py) -/

/-- One error record appended by record_error (checkpoint_manager.py
lines 275-280). -/
structure ErrorEntry where
  timestamp : String
  etype : String
  message : String
  context : List (String × String)
  deriving DecidableEq, Repr

/-- ExportState (checkpoint_manager.py lines 18-52) after __post_init__:
the two exported-ID sets are Python sets, modelled as duplicate-free
lists in insertion order. -/
structure ExportState where
  export_id : String
  label : String
  export_date : String
  started_at : String
  last_updated : String
  profile : String
  confluence_spaces_completed : List String
  confluence_pages_exported : List String
  jira_projects_completed : List String
  jira_issues_exported : List String
  current_operation : Option String
  current_space_key : Option String
  current_project_key : Option String
  current_batch_start : ℕ
  total_confluence_pages : ℕ
  total_jira_issues : ℕ
  errors_encountered : List ErrorEntry
  deriving DecidableEq, Repr

/-- Python set(list) construction: deduplicate keeping first occurrence;
membership is exactly membership in the original list. -/
def pySet (l : List String) : List String :=
  l.foldl (fun acc x => if acc.contains x then acc else acc ++ [x]) []

/-- Python set.add: append when absent. -/
def pySetAdd (l : List String) (x : String) : List String :=
  if l.contains x then l else l ++ [x]

/-- The serialized (JSON) form of an ExportState as produced by to_dict
(checkpoint_manager.py lines 54-60): the two exported-ID sets are plain
lists, and errors_encountered may be null. -/
structure SerializedExportState where
  export_id : String
  label : String
  export_date : String
  started_at : String
  last_updated : String
  profile : String
  confluence_spaces_completed : List String
  confluence_pages_exported : List String
  jira_projects_completed : List String
  jira_issues_exported : List String
  current_operation : Option String
  current_space_key : Option String
  current_project_key : Option String
  current_batch_start : ℕ
  total_confluence_pages : ℕ
  total_jira_issues : ℕ
  errors_encountered : Option (List ErrorEntry)
  deriving DecidableEq, Repr

/-- ExportState.from_dict combined with __post_init__
(checkpoint_manager.py lines 45-52 and 62-65): the two exported-ID list
fields are converted back to sets, and a null error list becomes empty. -/
def ExportState.from_dict (d : SerializedExportState) : ExportState :=
  { export_id := d.export_id
    label := d.label
    export_date := d.export_date
    started_at := d.started_at
    last_updated := d.last_updated
    profile := d.profile
    confluence_spaces_completed := d.confluence_spaces_completed
    confluence_pages_exported := pySet d.confluence_pages_exported
    jira_projects_completed := d.jira_projects_completed
    jira_issues_exported := pySet d.jira_issues_exported
    current_operation := d.current_operation
    current_space_key := d.current_space_key
    current_project_key := d.current_project_key
    current_batch_start := d.current_batch_start
    total_confluence_pages := d.total_confluence_pages
    total_jira_issues := d.total_jira_issues
    errors_encountered := d.errors_encountered.getD [] }

/-- Injective rendering of the checkpoint JSON written by save_checkpoint
(json.dump of to_dict, formatting abstracted). -/
def serializeExportState (s : ExportState) : String :=
  s.export_id ++ "|" ++ s.label ++ "|" ++ s.export_date ++ "|" ++ s.started_at
    ++ "|" ++ s.last_updated ++ "|" ++ s.profile
    ++ "|" ++ String.intercalate "," s.confluence_spaces_completed
    ++ "|" ++ String.intercalate "," s.confluence_pages_exported
    ++ "|" ++ String.intercalate "," s.jira_projects_completed
    ++ "|" ++ String.intercalate "," s.jira_issues_exported

/-- Path.with_suffix: replace the extension after the last dot
(checkpoint files always carry a .json extension). -/
def withSuffix (path : String) (suffix : String) : String :=
  match path.splitOn "." with
  | [] => path ++ suffix
  | parts => String.intercalate "." parts.dropLast ++ suffix

/-- Mutable state of CheckpointManager (checkpoint_manager.py lines
71-78); checkpoint_interval is hardwired to 10 in __init__. -/
structure CheckpointManager where
  current_state : Option ExportState
  checkpoint_file : Option String
  save_counter : ℕ
  checkpoint_interval : ℕ
  deriving DecidableEq, Repr

/-- CheckpointManager.__init__ (checkpoint_manager.py lines 71-78). -/
def CheckpointManager.init : CheckpointManager :=
  { current_state := none, checkpoint_file := none
    save_counter := 0, checkpoint_interval := 10 }

/-- CheckpointManager.create_export_id (checkpoint_manager.py lines
80-84): the md5 fingerprint of label:date:timestamp, modelled by the
fingerprinted string itself. -/
def CheckpointManager.create_export_id (label : String) (export_date : String)
    (nowIso : String) : String :=
  label ++ ":" ++ export_date ++ ":" ++ nowIso

/-- CheckpointManager.save_checkpoint (checkpoint_manager.py lines
194-224): no-op when no state or no file is set; otherwise increment the
save counter, skip the write unless forced or the counter is divisible
by the interval, and perform the durable write as a temp-file write
followed by an atomic rename. Returns the new manager state and the
filesystem trace. -/
def CheckpointManager.save_checkpoint (m : CheckpointManager) (nowIso : String)
    (force : Bool) : CheckpointManager × List FsOp :=
  match m.current_state, m.checkpoint_file with
  | some st, some file =>
    let counter := m.save_counter + 1
    if !force && counter % m.checkpoint_interval != 0 then
      ({ m with save_counter := counter }, [])
    else
      let st1 := { st with last_updated := nowIso }
      let temp := withSuffix file ".tmp"
      ({ m with save_counter := counter, current_state := some st1 },
        [FsOp.write temp (serializeExportState st1), FsOp.rename temp file])
  | _, _ => (m, [])

/-- CheckpointManager.start_new_export (checkpoint_manager.py lines
86-113): build the fresh ExportState, set the checkpoint file path, and
call save_checkpoint with its default force value (false). -/
def CheckpointManager.start_new_export (m : CheckpointManager) (label : String)
    (export_date : String) (profile : String) (nowIso : String) :
    CheckpointManager × List FsOp :=
  let export_id := CheckpointManager.create_export_id label export_date nowIso
  let st : ExportState :=
    { export_id := export_id
      label := label
      export_date := export_date
      started_at := nowIso
      last_updated := nowIso
      profile := profile
      confluence_spaces_completed := []
      confluence_pages_exported := []
      jira_projects_completed := []
      jira_issues_exported := []
      current_operation := none
      current_space_key := none
      current_project_key := none
      current_batch_start := 0
      total_confluence_pages := 0
      total_jira_issues := 0
      errors_encountered := [] }
  let m1 := { m with current_state := some st
                     checkpoint_file := some ("checkpoint_" ++ export_id ++ ".json") }
  CheckpointManager.save_checkpoint m1 nowIso false

/-- CheckpointManager.resume_export (checkpoint_manager.py lines
115-143), with file reading and JSON parsing abstracted: given the
parsed checkpoint data, install the reconstructed state and remember the
checkpoint path. The checkpoint module performs no network access; this
operation and the membership queries below touch only manager state. -/
def CheckpointManager.resume_export (m : CheckpointManager)
    (data : SerializedExportState) (path : String) : CheckpointManager :=
  { m with current_state := some (ExportState.from_dict data)
           checkpoint_file := some path }

/-- CheckpointManager.update_confluence_progress (checkpoint_manager.py
lines 226-236). -/
def CheckpointManager.update_confluence_progress (m : CheckpointManager)
    (space_key : String) (page_id : String) (nowIso : String) :
    CheckpointManager × List FsOp :=
  match m.current_state with
  | none => (m, [])
  | some st =>
    let st1 := { st with current_operation := some "confluence"
                         current_space_key := some space_key
                         confluence_pages_exported :=
                           pySetAdd st.confluence_pages_exported page_id }
    CheckpointManager.save_checkpoint { m with current_state := some st1 } nowIso false

/-- CheckpointManager.mark_confluence_space_complete (checkpoint_manager.py
lines 238-246). -/
def CheckpointManager.mark_confluence_space_complete (m : CheckpointManager)
    (space_key : String) (nowIso : String) : CheckpointManager × List FsOp :=
  match m.current_state with
  | none => (m, [])
  | some st =>
    let st1 :=
      if st.confluence_spaces_completed.contains space_key then st
      else { st with confluence_spaces_completed :=
                       st.confluence_spaces_completed ++ [space_key] }
    CheckpointManager.save_checkpoint { m with current_state := some st1 } nowIso true

/-- CheckpointManager.update_jira_progress (checkpoint_manager.py lines
248-258). -/
def CheckpointManager.update_jira_progress (m : CheckpointManager)
    (project_key : String) (issue_key : String) (nowIso : String) :
    CheckpointManager × List FsOp :=
  match m.current_state with
  | none => (m, [])
  | some st =>
    let st1 := { st with current_operation := some "jira"
                         current_project_key := some project_key
                         jira_issues_exported :=
                           pySetAdd st.jira_issues_exported issue_key }
    CheckpointManager.save_checkpoint { m with current_state := some st1 } nowIso false

/-- CheckpointManager.mark_jira_project_complete (checkpoint_manager.py
lines 260-268). -/
def CheckpointManager.mark_jira_project_complete (m : CheckpointManager)
    (project_key : String) (nowIso : String) : CheckpointManager × List FsOp :=
  match m.current_state with
  | none => (m, [])
  | some st =>
    let st1 :=
      if st.jira_projects_completed.contains project_key then st
      else { st with jira_projects_completed :=
                       st.jira_projects_completed ++ [project_key] }
    CheckpointManager.save_checkpoint { m with current_state := some st1 } nowIso true

/-- CheckpointManager.record_error (checkpoint_manager.py lines 270-283). -/
def CheckpointManager.record_error (m : CheckpointManager) (error_type : String)
    (error_message : String) (context : List (String × String)) (nowIso : String) :
    CheckpointManager × List FsOp :=
  match m.current_state with
  | none => (m, [])
  | some st =>
    let entry : ErrorEntry :=
      { timestamp := nowIso, etype := error_type
        message := error_message, context := context }
    let st1 := { st with errors_encountered := st.errors_encountered ++ [entry] }
    CheckpointManager.save_checkpoint { m with current_state := some st1 } nowIso true

/-- Injective rendering of the completion marker JSON written by
complete_export (checkpoint_manager.py lines 325-334). -/
def serializeCompletion (s : ExportState) (completedAt : String) : String :=
  s.export_id ++ "|" ++ completedAt
    ++ "|" ++ toString s.confluence_pages_exported.length
    ++ "|" ++ toString s.jira_issues_exported.length
    ++ "|" ++ toString s.errors_encountered.length

/-- CheckpointManager.complete_export (checkpoint_manager.py lines
315-342): no-op when no state is set; otherwise clear the current
operation, force a save, and write the completion marker file. The
error case models the AttributeError Python raises when with_suffix is
called on a None checkpoint_file. -/
def CheckpointManager.complete_export (m : CheckpointManager) (nowIso : String) :
    Except String (CheckpointManager × List FsOp) :=
  match m.current_state with
  | none => .ok (m, [])
  | some st =>
    let st1 := { st with current_operation := none }
    let r := CheckpointManager.save_checkpoint
      { m with current_state := some st1 } nowIso true
    match m.checkpoint_file with
    | none => .error "AttributeError: NoneType object has no attribute with_suffix"
    | some file =>
      .ok (r.1, r.2 ++ [FsOp.write (withSuffix file ".complete")
                          (serializeCompletion st1 nowIso)])

/-- CheckpointManager.is_confluence_page_exported (checkpoint_manager.py
lines 285-287): a pure membership query against in-memory state. -/
def CheckpointManager.is_confluence_page_exported (m : CheckpointManager)
    (page_id : String) : Bool :=
  match m.current_state with
  | none => false
  | some st => st.confluence_pages_exported.contains page_id

/-- CheckpointManager.is_jira_issue_exported (checkpoint_manager.py lines
289-291): a pure membership query against in-memory state. -/
def CheckpointManager.is_jira_issue_exported (m : CheckpointManager)
    (issue_key : String) : Bool :=
  match m.current_state with
  | none => false
  | some st => st.jira_issues_exported.contains issue_key

/-- The persistence discipline claimed by the spec for the cache index
file, stated on a filesystem trace: some temporary file is written and
then renamed over the target, and the target is never written directly,
so a crash mid-write cannot leave a partially written target. -/
def atomicReplaceSpec (ops : List FsOp) (target : String) : Prop :=
  (∃ temp content, temp ≠ target ∧ FsOp.write temp content ∈ ops ∧
    FsOp.rename temp target ∈ ops) ∧
  ∀ content, FsOp.write target content ∉ ops

/-! ## Helper lemmas -/

theorem lookupA_eraseA_self {α : Type} (l : List (String × α)) (k : String) :
    lookupA (eraseA l k) k = none := by
  have h : (eraseA l k).find? (fun p => p.1 == k) = none := by
    rw [List.find?_eq_none]
    intro x hx
    have hmem := List.of_mem_filter hx
    simp only [bne, Bool.not_eq_true'] at hmem
    simp [hmem]
  simp [lookupA, h]

theorem mem_pySet_fold (l : List String) :
    ∀ (acc : List String) (x : String),
      (x ∈ l.foldl (fun a y => if a.contains y then a else a ++ [y]) acc ↔
        x ∈ acc ∨ x ∈ l) := by
  induction l with
  | nil => intro acc x; simp
  | cons y ys ih =>
    intro acc x
    simp only [List.foldl_cons]
    rw [ih]
    by_cases h : acc.contains y
    · have hy : y ∈ acc := List.elem_iff.mp h
      simp only [h, if_pos rfl]
      constructor
      · rintro (hx | hx)
        · exact Or.inl hx
        · exact Or.inr (List.mem_cons_of_mem _ hx)
      · rintro (hx | hx)
        · exact Or.inl hx
        · rcases List.mem_cons.mp hx with rfl | hx
          · exact Or.inl hy
          · exact Or.inr hx
    · simp only [h, if_neg]
      constructor
      · rintro (hx | hx)
        · rcases List.mem_append.mp hx with hx | hx
          · exact Or.inl hx
          · simp only [List.mem_singleton] at hx
            exact Or.inr (hx ▸ List.mem_cons_self _ _)
        · exact Or.inr (List.mem_cons_of_mem _ hx)
      · rintro (hx | hx)
        · exact Or.inl (List.mem_append.mpr (Or.inl hx))
        · rcases List.mem_cons.mp hx with rfl | hx
          · exact Or.inl (List.mem_append.mpr (Or.inr (List.mem_singleton.mpr rfl)))
          · exact Or.inr hx

theorem mem_pySet (l : List String) (x : String) : x ∈ pySet l ↔ x ∈ l := by
  rw [pySet, mem_pySet_fold]
  simp

/-! ## Claim theorems -/

/-- C1: the claim states that start_new_export has already durably
persisted the new state when it returns, as an immediate forced write
independent of the save counter. On the code this is false: the call to
save_checkpoint passes no force flag, so on a fresh manager the counter
becomes 1, 1 mod 10 is nonzero, and the write is skipped. This theorem
evaluates the model at that failing input: the new in-memory state is
set, the save counter was incremented to 1, and the filesystem trace is
empty, so no durable write of any kind happened. -/
theorem start_new_export_no_immediate_write :
    (CheckpointManager.start_new_export CheckpointManager.init
      "docs" "2025-01-01" "balanced" "2025-01-01T00:00:00").2 = [] ∧
    (CheckpointManager.start_new_export CheckpointManager.init
      "docs" "2025-01-01" "balanced" "2025-01-01T00:00:00").1.save_counter = 1 ∧
    (CheckpointManager.start_new_export CheckpointManager.init
      "docs" "2025-01-01" "balanced" "2025-01-01T00:00:00").1.current_state.isSome = true :=
  ⟨rfl, rfl, rfl⟩

/-- C7: when the breaker is OPEN, the last failure time is recorded, and
at least recovery_timeout has elapsed, the next call is never rejected
as circuit-open (the wrapped function is invoked as the HALF_OPEN
probe); if that invocation succeeds, the state becomes CLOSED and the
failure count resets to 0. -/
theorem breaker_recovers (cfg : CircuitBreakerConfig) (cb : CircuitBreaker)
    (t0 now : ℚ) (hopen : cb.state = .OPEN)
    (hlast : cb.last_failure_time = some t0)
    (helapsed : cfg.recovery_timeout ≤ now - t0) :
    (∀ r : HttpResult, (CircuitBreaker.call cfg cb now r).1 ≠ .circuitOpen) ∧
    (CircuitBreaker.call cfg cb now .success).1 = .succeeded ∧
    (CircuitBreaker.call cfg cb now .success).2.state = .CLOSED ∧
    (CircuitBreaker.call cfg cb now .success).2.failure_count = 0 := by
  have hreset : cb.shouldAttemptReset cfg now = true := by
    simp [CircuitBreaker.shouldAttemptReset, hlast, helapsed]
  refine ⟨?_, ?_, ?_, ?_⟩
  · intro r
    cases r <;>
      simp [CircuitBreaker.call, hopen, hreset, CircuitBreaker.runInvocation,
        CircuitBreaker.onSuccess, CircuitBreaker.onFailure]
  all_goals
    simp [CircuitBreaker.call, hopen, hreset, CircuitBreaker.runInvocation,
      CircuitBreaker.onSuccess]

/-- C7 witness: concrete breaker opened at time 0 with a one-second
recovery timeout, probed successfully at time 2. -/
theorem breaker_recovers_witness :
    (CircuitBreaker.call ⟨3, 1⟩ ⟨3, some 0, .OPEN⟩ 2 .success).1 = .succeeded ∧
    (CircuitBreaker.call ⟨3, 1⟩ ⟨3, some 0, .OPEN⟩ 2 .success).2.state = .CLOSED ∧
    (CircuitBreaker.call ⟨3, 1⟩ ⟨3, some 0, .OPEN⟩ 2 .success).2.failure_count = 0 :=
  (breaker_recovers ⟨3, 1⟩ ⟨3, some 0, .OPEN⟩ 0 2 rfl rfl (by norm_num)).2

/-- C9: resuming from a persisted checkpoint whose serialized
exported-ID list contains an item reconstructs the in-memory sets so
that the corresponding membership query answers true; resume_export and
the is_exported queries are pure functions of manager state in this
model, and the checkpoint module performs no network access. -/
theorem resume_reconstructs_exported_sets (m : CheckpointManager)
    (data : SerializedExportState) (path : String) (x y : String)
    (hx : x ∈ data.confluence_pages_exported)
    (hy : y ∈ data.jira_issues_exported) :
    (CheckpointManager.resume_export m data path).is_confluence_page_exported x = true ∧
    (CheckpointManager.resume_export m data path).is_jira_issue_exported y = true := by
  constructor
  · simp only [CheckpointManager.resume_export,
      CheckpointManager.is_confluence_page_exported, ExportState.from_dict]
    exact List.elem_iff.mpr ((mem_pySet _ _).mpr hx)
  · simp only [CheckpointManager.resume_export,
      CheckpointManager.is_jira_issue_exported, ExportState.from_dict]
    exact List.elem_iff.mpr ((mem_pySet _ _).mpr hy)

/-- C9 witness: a concrete serialized checkpoint containing page p1 and
issue i1. -/
theorem resume_reconstructs_exported_sets_witness :
    (CheckpointManager.resume_export CheckpointManager.init
      { export_id := "e", label := "l", export_date := "d", started_at := "s"
        last_updated := "u", profile := "p"
        confluence_spaces_completed := []
        confluence_pages_exported := ["p1", "p2"]
        jira_projects_completed := []
        jira_issues_exported := ["i1"]
        current_operation := none, current_space_key := none
        current_project_key := none, current_batch_start := 0
        total_confluence_pages := 0, total_jira_issues := 0
        errors_encountered := none }
      "checkpoint_e.json").is_confluence_page_exported "p1" = true :=
  (resume_reconstructs_exported_sets CheckpointManager.init
    { export_id := "e", label := "l", export_date := "d", started_at := "s"
      last_updated := "u", profile := "p"
      confluence_spaces_completed := []
      confluence_pages_exported := ["p1", "p2"]
      jira_projects_completed := []
      jira_issues_exported := ["i1"]
      current_operation := none, current_space_key := none
      current_project_key := none, current_batch_start := 0
      total_confluence_pages := 0, total_jira_issues := 0
      errors_encountered := none }
    "checkpoint_e.json" "p1" "i1" (by decide) (by decide)).1

/-- C10: every mutating CheckpointManager operation invoked while
current_state is None returns normally as a silent no-op: the manager
state is unchanged (the save counter included), the filesystem trace is
empty, and complete_export takes its non-raising branch. -/
theorem mutating_ops_noop_without_state (m : CheckpointManager)
    (nowIso sk pid pk ik et em : String) (force : Bool)
    (ctx : List (String × String)) (h : m.current_state = none) :
    CheckpointManager.save_checkpoint m nowIso force = (m, []) ∧
    CheckpointManager.update_confluence_progress m sk pid nowIso = (m, []) ∧
    CheckpointManager.mark_confluence_space_complete m sk nowIso = (m, []) ∧
    CheckpointManager.update_jira_progress m pk ik nowIso = (m, []) ∧
    CheckpointManager.mark_jira_project_complete m pk nowIso = (m, []) ∧
    CheckpointManager.record_error m et em ctx nowIso = (m, []) ∧
    CheckpointManager.complete_export m nowIso = .ok (m, []) := by
  obtain ⟨cs, cf, sc, ci⟩ := m
  simp only [CheckpointManager.current_state] at h
  subst h
  refine ⟨?_, ?_, ?_, ?_, ?_, ?_, ?_⟩ <;>
    cases cf <;>
      simp [CheckpointManager.save_checkpoint,
        CheckpointManager.update_confluence_progress,
        CheckpointManager.mark_confluence_space_complete,
        CheckpointManager.update_jira_progress,
        CheckpointManager.mark_jira_project_complete,
        CheckpointManager.record_error,
        CheckpointManager.complete_export]

/-- C10 witness: a freshly constructed manager has no current state and
every mutating operation is a silent no-op on it. -/
theorem mutating_ops_noop_without_state_witness :
    CheckpointManager.save_checkpoint CheckpointManager.init "T" true =
      (CheckpointManager.init, []) ∧
    CheckpointManager.complete_export CheckpointManager.init "T" =
      .ok (CheckpointManager.init, []) := by
  have h := mutating_ops_noop_without_state CheckpointManager.init
    "T" "s" "p" "j" "i" "e" "m" true [] rfl
  exact ⟨h.1, h.2.2.2.2.2.2⟩

theorem runFailingCalls_closed_streak (cfg : CircuitBreakerConfig) :
    ∀ (calls : List (ℚ × Option ℕ)) (cb : CircuitBreaker),
      cb.state = .CLOSED →
      cb.failure_count + calls.length < cfg.failure_threshold →
      (CircuitBreaker.runFailingCalls cfg cb calls).state = .CLOSED ∧
      (CircuitBreaker.runFailingCalls cfg cb calls).failure_count =
        cb.failure_count + calls.length := by
  intro calls
  induction calls with
  | nil =>
    intro cb hst _
    exact ⟨hst, rfl⟩
  | cons p rest ih =>
    intro cb hst hcount
    have hnotopen : ¬ cb.state = BreakerState.OPEN := by rw [hst]; intro hc; cases hc
    have hnotth : ¬ (cfg.failure_threshold ≤ cb.failure_count + 1) := by
      simp only [List.length_cons] at hcount
      omega
    have hstep :
        (CircuitBreaker.call cfg cb p.1 (.failure p.2)).2 =
          { failure_count := cb.failure_count + 1
            last_failure_time := some p.1
            state := cb.state } := by
      simp [CircuitBreaker.call, hnotopen, CircuitBreaker.runInvocation,
        CircuitBreaker.onFailure, hnotth]
    have hrun :
        CircuitBreaker.runFailingCalls cfg cb (p :: rest) =
          CircuitBreaker.runFailingCalls cfg
            (CircuitBreaker.call cfg cb p.1 (.failure p.2)).2 rest := rfl
    rw [hrun, hstep]
    have hrec := ih { failure_count := cb.failure_count + 1
                      last_failure_time := some p.1
                      state := cb.state } hst
      (by simp only [List.length_cons] at hcount; simpa using by omega)
    refine ⟨hrec.1, ?_⟩
    rw [hrec.2]
    simp only [List.length_cons]
    omega

/-- C6: with failure_threshold = N at least 1, a streak of N consecutive
failing calls starting from a fresh breaker transitions the state to
OPEN, and the next call made before recovery_timeout has elapsed since
the last failure raises the circuit-open error without invoking the
wrapped function and without mutating the breaker; in general, whenever
the state is OPEN, the last failure time is recorded and the timeout has
not elapsed, call never invokes the wrapped function. -/
theorem breaker_opens_at_threshold (cfg : CircuitBreakerConfig)
    (calls : List (ℚ × Option ℕ)) (pN : ℚ × Option ℕ)
    (hlen : calls.length + 1 = cfg.failure_threshold)
    (tnext : ℚ) (hsoon : tnext - pN.1 < cfg.recovery_timeout) (r : HttpResult) :
    (CircuitBreaker.runFailingCalls cfg CircuitBreaker.init (calls ++ [pN])).state =
      .OPEN ∧
    CircuitBreaker.call cfg
      (CircuitBreaker.runFailingCalls cfg CircuitBreaker.init (calls ++ [pN]))
      tnext r =
      (.circuitOpen,
        CircuitBreaker.runFailingCalls cfg CircuitBreaker.init (calls ++ [pN])) ∧
    (∀ (cb : CircuitBreaker) (t0 now : ℚ) (res : HttpResult),
      cb.state = .OPEN → cb.last_failure_time = some t0 →
      now - t0 < cfg.recovery_timeout →
      CircuitBreaker.call cfg cb now res = (.circuitOpen, cb)) := by
  have hgen : ∀ (cb : CircuitBreaker) (t0 now : ℚ) (res : HttpResult),
      cb.state = .OPEN → cb.last_failure_time = some t0 →
      now - t0 < cfg.recovery_timeout →
      CircuitBreaker.call cfg cb now res = (.circuitOpen, cb) := by
    intro cb t0 now res hopen hlast hlt
    have hreset : cb.shouldAttemptReset cfg now = false := by
      simp [CircuitBreaker.shouldAttemptReset, hlast, not_le.mpr hlt]
    simp [CircuitBreaker.call, hopen, hreset]
  have hfirstN := runFailingCalls_closed_streak cfg calls CircuitBreaker.init rfl
    (by simp only [CircuitBreaker.init]; omega)
  have happ :
      CircuitBreaker.runFailingCalls cfg CircuitBreaker.init (calls ++ [pN]) =
        CircuitBreaker.runFailingCalls cfg
          (CircuitBreaker.runFailingCalls cfg CircuitBreaker.init calls) [pN] := by
    simp [CircuitBreaker.runFailingCalls, List.foldl_append]
  set mid := CircuitBreaker.runFailingCalls cfg CircuitBreaker.init calls with hmid
  have hmidcount : mid.failure_count = calls.length := by
    have := hfirstN.2
    simpa [CircuitBreaker.init] using this
  have hnotopen : ¬ mid.state = BreakerState.OPEN := by
    rw [hfirstN.1]; intro hc; cases hc
  have hth : cfg.failure_threshold ≤ mid.failure_count + 1 := by
    rw [hmidcount]; omega
  have hfinal :
      CircuitBreaker.runFailingCalls cfg CircuitBreaker.init (calls ++ [pN]) =
        { failure_count := mid.failure_count + 1
          last_failure_time := some pN.1
          state := .OPEN } := by
    rw [happ]
    show (CircuitBreaker.call cfg mid pN.1 (.failure pN.2)).2 = _
    simp [CircuitBreaker.call, hnotopen, CircuitBreaker.runInvocation,
      CircuitBreaker.onFailure, hth]
  refine ⟨by rw [hfinal], ?_, hgen⟩
  rw [hfinal]
  exact hgen _ pN.1 tnext r rfl rfl hsoon

/-- C6 witness: threshold 2, two failing calls at times 0 and 1 with
status 500, probe attempted at time 2 with a one-hundred-second recovery
timeout. -/
theorem breaker_opens_at_threshold_witness :
    (CircuitBreaker.runFailingCalls ⟨2, 100⟩ CircuitBreaker.init
      ([(0, some 500)] ++ [(1, some 500)])).state = .OPEN ∧
    CircuitBreaker.call ⟨2, 100⟩
      (CircuitBreaker.runFailingCalls ⟨2, 100⟩ CircuitBreaker.init
        ([(0, some 500)] ++ [(1, some 500)])) 2 .success =
      (.circuitOpen,
        CircuitBreaker.runFailingCalls ⟨2, 100⟩ CircuitBreaker.init
          ([(0, some 500)] ++ [(1, some 500)])) := by
  have h := breaker_opens_at_threshold ⟨2, 100⟩ [(0, some 500)] (1, some 500)
    (by decide) 2 (by norm_num) .success
  exact ⟨h.1, h.2.1⟩

/-- The call times of an acquire sequence are nondecreasing and start no
earlier than the given reference time (the wall clock is monotonic). -/
def TimesMonotone : ℚ → List (ℚ × ℚ) → Prop
  | _, [] => True
  | t, p :: rest => t ≤ p.1 ∧ TimesMonotone p.1 rest

theorem acquire_preserves_inv (rl : RateLimiter) (now n : ℚ)
    (h0 : 0 ≤ rl.tokens) (hmax : rl.tokens ≤ rl.max_tokens)
    (hrate : 0 ≤ rl.refill_rate) (hmono : rl.last_refill ≤ now) (hn : 0 ≤ n) :
    0 ≤ (rl.acquire now n).2.tokens ∧
    (rl.acquire now n).2.tokens ≤ (rl.acquire now n).2.max_tokens ∧
    (rl.acquire now n).2.max_tokens = rl.max_tokens ∧
    (rl.acquire now n).2.refill_rate = rl.refill_rate ∧
    (rl.acquire now n).2.last_refill = now := by
  have hmaxpos : 0 ≤ rl.max_tokens := le_trans h0 hmax
  have hrefill : 0 ≤ rl.tokens + (now - rl.last_refill) * rl.refill_rate := by
    have : 0 ≤ (now - rl.last_refill) * rl.refill_rate :=
      mul_nonneg (by linarith) hrate
    linarith
  have h1lo : 0 ≤ min rl.max_tokens (rl.tokens + (now - rl.last_refill) * rl.refill_rate) :=
    le_min hmaxpos hrefill
  have h1hi : min rl.max_tokens (rl.tokens + (now - rl.last_refill) * rl.refill_rate) ≤
      rl.max_tokens := min_le_left _ _
  have hacq : rl.acquire now n =
      if n ≤ min rl.max_tokens (rl.tokens + (now - rl.last_refill) * rl.refill_rate) then
        (0, { rl with
                tokens := min rl.max_tokens
                  (rl.tokens + (now - rl.last_refill) * rl.refill_rate) - n
                last_refill := now })
      else
        (max ((n - min rl.max_tokens
            (rl.tokens + (now - rl.last_refill) * rl.refill_rate)) / rl.refill_rate)
          rl.min_request_interval,
         { rl with
             tokens := min rl.max_tokens
               (rl.tokens + (now - rl.last_refill) * rl.refill_rate)
             last_refill := now }) := rfl
  by_cases hcase : n ≤ min rl.max_tokens (rl.tokens + (now - rl.last_refill) * rl.refill_rate)
  · rw [hacq, if_pos hcase]
    refine ⟨?_, ?_, rfl, rfl, rfl⟩
    · show 0 ≤ min rl.max_tokens (rl.tokens + (now - rl.last_refill) * rl.refill_rate) - n
      linarith
    · show min rl.max_tokens (rl.tokens + (now - rl.last_refill) * rl.refill_rate) - n ≤
        rl.max_tokens
      linarith
  · rw [hacq, if_neg hcase]
    exact ⟨h1lo, h1hi, rfl, rfl, rfl⟩

theorem runAcquires_take_inv :
    ∀ (steps : List (ℚ × ℚ)) (rl : RateLimiter),
      0 ≤ rl.tokens → rl.tokens ≤ rl.max_tokens → 0 ≤ rl.refill_rate →
      TimesMonotone rl.last_refill steps →
      (∀ p ∈ steps, 0 ≤ p.2) →
      ∀ k : ℕ,
        0 ≤ (rl.runAcquires (steps.take k)).tokens ∧
        (rl.runAcquires (steps.take k)).tokens ≤
          (rl.runAcquires (steps.take k)).max_tokens := by
  intro steps
  induction steps with
  | nil =>
    intro rl h0 hmax _ _ _ k
    simp only [List.take_nil, RateLimiter.runAcquires, List.foldl_nil]
    exact ⟨h0, hmax⟩
  | cons p rest ih =>
    intro rl h0 hmax hrate hmono hpos k
    cases k with
    | zero =>
      simp only [List.take_zero, RateLimiter.runAcquires, List.foldl_nil]
      exact ⟨h0, hmax⟩
    | succ k =>
      simp only [List.take_succ_cons]
      have hstep := acquire_preserves_inv rl p.1 p.2 h0 hmax hrate hmono.1
        (hpos p (List.mem_cons_self _ _))
      have hchain : TimesMonotone (rl.acquire p.1 p.2).2.last_refill rest := by
        rw [hstep.2.2.2.2]
        exact hmono.2
      have hrec := ih (rl.acquire p.1 p.2).2 hstep.1 hstep.2.1
        (hstep.2.2.2.1 ▸ hrate) hchain
        (fun q hq => hpos q (List.mem_cons_of_mem _ hq)) k
      have hunfold :
          RateLimiter.runAcquires rl (p :: rest.take k) =
            RateLimiter.runAcquires (rl.acquire p.1 p.2).2 (rest.take k) := rfl
      rw [hunfold]
      exact hrec

/-- C8: for every sequence of acquire calls with nonnegative token
requests, issued at monotonically nondecreasing wall-clock times on a
limiter built from a configuration with nonnegative burst size and
refill rate, the tokens field stays between 0 and max_tokens at every
observation point (after every prefix of the call sequence). -/
theorem rate_limiter_token_bounds (cfg : RateLimitConfig) (t0 : ℚ)
    (steps : List (ℚ × ℚ)) (hburst : 0 ≤ cfg.burst_size)
    (hrate : 0 ≤ cfg.requests_per_second)
    (hmono : TimesMonotone t0 steps)
    (hreq : ∀ p ∈ steps, 0 ≤ p.2) (k : ℕ) :
    0 ≤ ((RateLimiter.init cfg t0).runAcquires (steps.take k)).tokens ∧
    ((RateLimiter.init cfg t0).runAcquires (steps.take k)).tokens ≤
      ((RateLimiter.init cfg t0).runAcquires (steps.take k)).max_tokens :=
  runAcquires_take_inv steps (RateLimiter.init cfg t0) hburst le_rfl hrate hmono hreq k

/-- C8 witness: a burst-two limiter created at time 0, with three
one-token acquires at times 0, 0 and 1, observed after the whole
sequence. -/
theorem rate_limiter_token_bounds_witness :
    0 ≤ ((RateLimiter.init ⟨1, 2, (1 : ℚ) / 10⟩ 0).runAcquires
      (([(0, 1), (0, 1), (1, 1)] : List (ℚ × ℚ)).take 3)).tokens ∧
    ((RateLimiter.init ⟨1, 2, (1 : ℚ) / 10⟩ 0).runAcquires
      (([(0, 1), (0, 1), (1, 1)] : List (ℚ × ℚ)).take 3)).tokens ≤
      ((RateLimiter.init ⟨1, 2, (1 : ℚ) / 10⟩ 0).runAcquires
        (([(0, 1), (0, 1), (1, 1)] : List (ℚ × ℚ)).take 3)).max_tokens :=
  rate_limiter_token_bounds ⟨1, 2, (1 : ℚ) / 10⟩ 0 [(0, 1), (0, 1), (1, 1)]
    (by norm_num) (by norm_num)
    (by simp only [TimesMonotone]; norm_num)
    (by intro p hp; fin_cases hp <;> norm_num) 3

theorem requestAttempts_all_retryable_failures (rc : RetryConfig)
    (cc : CircuitBreakerConfig) (results : ℕ → HttpResult) (times : ℕ → ℚ)
    (sts : ℕ → ℕ) :
    ∀ (fuel attempt : ℕ) (cb : CircuitBreaker),
      1 ≤ fuel → cb.state = .CLOSED →
      cb.failure_count + fuel ≤ cc.failure_threshold →
      (∀ i, attempt ≤ i → i < attempt + fuel →
        results i = .failure (some (sts i)) ∧ sts i ∈ rc.retry_on_status_codes) →
      (requestAttempts rc cc results times attempt fuel cb).1 = fuel ∧
      (requestAttempts rc cc results times attempt fuel cb).2.1 =
        .httpError (some (sts (attempt + fuel - 1))) := by
  intro fuel
  induction fuel with
  | zero => intro attempt cb h1 _ _ _; omega
  | succ f ih =>
    intro attempt cb _ hclosed hcount hresults
    have hnotopen : ¬ cb.state = BreakerState.OPEN := by
      rw [hclosed]; intro hc; cases hc
    have hres := hresults attempt (le_refl _) (by omega)
    have hcall :
        CircuitBreaker.call cc cb (times attempt) (results attempt) =
          (.failed (some (sts attempt)), cb.onFailure cc (times attempt)) := by
      simp [CircuitBreaker.call, hnotopen, hres.1, CircuitBreaker.runInvocation]
    cases f with
    | zero =>
      refine ⟨?_, ?_⟩ <;>
        simp [requestAttempts, hcall]
    | succ s =>
      have hnotth : ¬ (cc.failure_threshold ≤ cb.failure_count + 1) := by omega
      have hcb1closed : (cb.onFailure cc (times attempt)).state = .CLOSED := by
        simp [CircuitBreaker.onFailure, hnotth, hclosed]
      have hcb1count :
          (cb.onFailure cc (times attempt)).failure_count = cb.failure_count + 1 := rfl
      have hrec := ih (attempt + 1) (cb.onFailure cc (times attempt))
        (by omega) hcb1closed (by omega)
        (fun i hi1 hi2 => hresults i (by omega) (by omega))
      have hunfold :
          requestAttempts rc cc results times attempt (s + 1 + 1) cb =
            ((requestAttempts rc cc results times (attempt + 1) (s + 1)
                (cb.onFailure cc (times attempt))).1 + 1,
              (requestAttempts rc cc results times (attempt + 1) (s + 1)
                (cb.onFailure cc (times attempt))).2.1,
              (requestAttempts rc cc results times (attempt + 1) (s + 1)
                (cb.onFailure cc (times attempt))).2.2) := by
        rw [requestAttempts, hcall]
        simp [hres.2]
      rw [hunfold]
      refine ⟨by rw [hrec.1], ?_⟩
      have harith : attempt + 1 + (s + 1) - 1 = attempt + (s + 1 + 1) - 1 := by omega
      simpa [harith] using hrec.2

/-- C2 amended: for every configuration whose circuit breaker threshold
exceeds the retry budget (so the breaker never opens during the loop),
starting from a fresh breaker, a request whose every underlying HTTP
attempt fails with a status in the configured retryable set performs
exactly max_retries plus one underlying invocations and request raises
the last HTTP error. Without that threshold condition the claim as
stated is refuted by request_retry_count_counterexample: the breaker
opens mid-loop and the circuit-open exception, which is not a
RequestException, escapes the loop early. -/
theorem retry_exhaustion_count (rc : RetryConfig) (cc : CircuitBreakerConfig)
    (results : ℕ → HttpResult) (times : ℕ → ℚ) (sts : ℕ → ℕ)
    (hth : rc.max_retries < cc.failure_threshold)
    (hfail : ∀ i, i ≤ rc.max_retries →
      results i = .failure (some (sts i)) ∧ sts i ∈ rc.retry_on_status_codes) :
    (request rc cc results times).1 = rc.max_retries + 1 ∧
    (request rc cc results times).2.1 = .httpError (some (sts rc.max_retries)) := by
  have h := requestAttempts_all_retryable_failures rc cc results times sts
    (rc.max_retries + 1) 0 CircuitBreaker.init (by omega) rfl
    (by simp [CircuitBreaker.init]; omega)
    (fun i hi1 hi2 => hfail i (by omega))
  refine ⟨h.1, ?_⟩
  have harith : 0 + (rc.max_retries + 1) - 1 = rc.max_retries := by omega
  simpa [harith] using h.2

/-- C2 witness: max_retries 1, threshold 5, every attempt failing with
status 500 — two invocations, last HTTP error raised. -/
theorem retry_exhaustion_count_witness :
    (request ⟨1, [429, 500, 502, 503, 504]⟩ ⟨5, 60⟩
      (fun _ => .failure (some 500)) (fun i => (i : ℚ))).1 = 2 ∧
    (request ⟨1, [429, 500, 502, 503, 504]⟩ ⟨5, 60⟩
      (fun _ => .failure (some 500)) (fun i => (i : ℚ))).2.1 =
      .httpError (some 500) :=
  retry_exhaustion_count ⟨1, [429, 500, 502, 503, 504]⟩ ⟨5, 60⟩
    (fun _ => .failure (some 500)) (fun i => (i : ℚ)) (fun _ => 500)
    (by decide) (by intro i _; exact ⟨rfl, by simp⟩)

/-- C2 counterexample: with max_retries 1 and failure_threshold 1 (and
the default 60-second recovery timeout, attempts one second apart),
every performed HTTP attempt fails with retryable status 500, yet only
one underlying invocation happens, not max_retries + 1 = 2, and what
request raises is the circuit-open exception rather than the last HTTP
error. -/
theorem request_retry_count_counterexample :
    (request ⟨1, [429, 500, 502, 503, 504]⟩ ⟨1, 60⟩
      (fun _ => .failure (some 500)) (fun i => (i : ℚ))).1 = 1 ∧
    ¬ (request ⟨1, [429, 500, 502, 503, 504]⟩ ⟨1, 60⟩
        (fun _ => .failure (some 500)) (fun i => (i : ℚ))).1 = 1 + 1 ∧
    (request ⟨1, [429, 500, 502, 503, 504]⟩ ⟨1, 60⟩
      (fun _ => .failure (some 500)) (fun i => (i : ℚ))).2.1 = .circuitOpen := by
  have hc1 :
      CircuitBreaker.call ⟨1, 60⟩ CircuitBreaker.init (0 : ℚ)
        (.failure (some 500)) =
        (.failed (some 500), ⟨1, some (0 : ℚ), .OPEN⟩) := by
    simp [CircuitBreaker.call, CircuitBreaker.init,
      CircuitBreaker.runInvocation, CircuitBreaker.onFailure]
  have hreset :
      CircuitBreaker.shouldAttemptReset ⟨1, 60⟩ ⟨1, some (0 : ℚ), .OPEN⟩
        (1 : ℚ) = false := by
    simp only [CircuitBreaker.shouldAttemptReset]
    exact decide_eq_false (by norm_num)
  have hc2 :
      CircuitBreaker.call ⟨1, 60⟩ ⟨1, some (0 : ℚ), .OPEN⟩ (1 : ℚ)
        (.failure (some 500)) =
        (.circuitOpen, ⟨1, some (0 : ℚ), .OPEN⟩) := by
    simp [CircuitBreaker.call, hreset]
  have hmain :
      request ⟨1, [429, 500, 502, 503, 504]⟩ ⟨1, 60⟩
        (fun _ => .failure (some 500)) (fun i => (i : ℚ)) =
        (1, .circuitOpen, ⟨1, some (0 : ℚ), .OPEN⟩) := by
    show requestAttempts _ _ _ _ 0 (1 + 1) CircuitBreaker.init = _
    simp [requestAttempts, hc1, hc2]
  rw [hmain]
  exact ⟨rfl, by norm_num, rfl⟩

/-- The index-persistence trace of a concrete RequestCache.set call: a
fresh cache with ttl 300 and capacity 1000, storing a GET response. -/
def indexWriteTrace : List FsOp :=
  match RequestCache.set
      { ttl := 300, max_size := 1000, cache_index := [], files := [] }
      0 "GET" "u" "v" none with
  | .ok r => r.2
  | .error _ => []

/-- C3 counterexample: the claim states that every persistence of the
index file uses atomic replace semantics (temporary file plus rename).
The trace of a concrete set call contains no rename at all — _save_index
opens the index file directly for writing — so the claimed discipline
fails at this input. -/
theorem index_write_not_atomic_counterexample :
    ¬ atomicReplaceSpec indexWriteTrace indexPath := by
  intro h
  obtain ⟨⟨temp, content, hne, hw, hr⟩, hnod⟩ := h
  simp [indexWriteTrace, RequestCache.set, RequestCache.finishSet, updateA,
    RequestCache.saveIndexOps, RequestCache.getCacheKey] at hr

/-- C3 amended: every persistence of the RequestCache index (on eviction
during get and on every set) is a direct in-place write of the index
file: _save_index emits exactly one write to index.json, and no
filesystem trace produced by get or set ever contains a rename. Atomic
replace is used by the checkpoint manager but not by the cache index,
whose corruption is instead tolerated at load time. -/
theorem index_persistence_direct_write (c : RequestCache) (now : ℚ)
    (method url v : String) (p : Option (List (String × String)))
    (idx : CacheIndex) :
    RequestCache.saveIndexOps idx = [FsOp.write indexPath (serializeIndex idx)] ∧
    (∀ s d, FsOp.rename s d ∉ (RequestCache.get c now method url p).2.2) ∧
    (∀ c1 ops, RequestCache.set c now method url v p = .ok (c1, ops) →
      ∀ s d, FsOp.rename s d ∉ ops) := by
  refine ⟨rfl, ?_, ?_⟩
  · intro s d
    cases hfound : lookupA c.cache_index (RequestCache.getCacheKey method url p) with
    | none => simp [RequestCache.get, hfound]
    | some entry =>
      cases hinner : (if now - entry.timestamp < c.ttl then
          lookupA c.files (payloadPath (RequestCache.getCacheKey method url p))
        else none) with
      | none => simp [RequestCache.get, hfound, hinner, RequestCache.saveIndexOps]
      | some payload => simp [RequestCache.get, hfound, hinner]
  · intro c1 ops hok s d
    rw [RequestCache.set] at hok
    by_cases hcap : c.max_size ≤ c.cache_index.length
    · rw [if_pos hcap] at hok
      cases hold : oldestEntry c.cache_index with
      | none => rw [hold] at hok; cases hok
      | some oldest =>
        rw [hold] at hok
        have hops := (Prod.mk.injEq _ _ _ _).mp (Except.ok.inj hok)
        rw [← hops.2]
        simp [RequestCache.finishSet, RequestCache.saveIndexOps]
    · rw [if_neg hcap] at hok
      have hops := (Prod.mk.injEq _ _ _ _).mp (Except.ok.inj hok)
      rw [← hops.2]
      simp [RequestCache.finishSet, RequestCache.saveIndexOps]

/-- C3 amended witness: the concrete set trace contains no rename. -/
theorem index_persistence_direct_write_witness :
    FsOp.rename "index.json.tmp" indexPath ∉ indexWriteTrace :=
  (index_persistence_direct_write
    { ttl := 300, max_size := 1000, cache_index := [], files := [] }
    0 "GET" "u" "v" none []).2.2 _ _ rfl "index.json.tmp" indexPath

/-- C4 amended: on a cache entry whose age has reached the ttl, get
returns absent, removes the index entry, and persists the updated index
with a direct write — but the files on disk are untouched: the backing
payload file is not removed (no unlink is emitted; payload files are
deleted only by capacity eviction inside set). -/
theorem cache_get_expired_evicts_index_only (c : RequestCache) (now : ℚ)
    (method url : String) (p : Option (List (String × String)))
    (entry : CacheEntry)
    (hfound : lookupA c.cache_index (RequestCache.getCacheKey method url p) =
      some entry)
    (hexpired : c.ttl ≤ now - entry.timestamp) :
    (RequestCache.get c now method url p).1 = none ∧
    lookupA (RequestCache.get c now method url p).2.1.cache_index
      (RequestCache.getCacheKey method url p) = none ∧
    (RequestCache.get c now method url p).2.1.files = c.files ∧
    (RequestCache.get c now method url p).2.2 =
      RequestCache.saveIndexOps
        (eraseA c.cache_index (RequestCache.getCacheKey method url p)) := by
  have hcond : ¬ (now - entry.timestamp < c.ttl) := not_lt.mpr hexpired
  simp only [RequestCache.get, hfound, if_neg hcond]
  refine ⟨?_, ?_, ?_, ?_⟩ <;>
    first
      | exact lookupA_eraseA_self _ _
      | rfl
      | trivial

/-- The concrete fingerprint of a GET request with no params. -/
def expiredKey : String := RequestCache.getCacheKey "GET" "u" none

/-- A cache holding one entry for expiredKey, created at time 0 with ttl
5, whose payload file is on disk. -/
def expiredCache : RequestCache :=
  { ttl := 5, max_size := 10
    cache_index := [(expiredKey, { timestamp := 0, url := "u", method := "GET" })]
    files := [(payloadPath expiredKey, "vv")] }

/-- C4 counterexample: the claim states that reads of an expired entry
remove both the index entry and the backing payload file. At time 10 the
entry created at time 0 with ttl 5 is expired; get returns absent, but
the payload file is still present in the cache file store afterwards and
the emitted trace contains no unlink of it. -/
theorem cache_expiry_keeps_payload_counterexample :
    (RequestCache.get expiredCache 10 "GET" "u" none).1 = none ∧
    lookupA (RequestCache.get expiredCache 10 "GET" "u" none).2.1.files
      (payloadPath expiredKey) = some "vv" ∧
    FsOp.unlink (payloadPath expiredKey) ∉
      (RequestCache.get expiredCache 10 "GET" "u" none).2.2 := by
  refine ⟨?_, ?_, ?_⟩
  · norm_num [RequestCache.get, expiredCache, expiredKey,
      RequestCache.getCacheKey, lookupA, eraseA, RequestCache.saveIndexOps,
      payloadPath]
  · norm_num [RequestCache.get, expiredCache, expiredKey,
      RequestCache.getCacheKey, lookupA, eraseA, RequestCache.saveIndexOps,
      payloadPath]
  · norm_num [RequestCache.get, expiredCache, expiredKey,
      RequestCache.getCacheKey, lookupA, eraseA, RequestCache.saveIndexOps,
      payloadPath]
    decide

/-- C4 amended witness: the expired concrete entry is evicted from the
index while the file store is left untouched. -/
theorem cache_get_expired_evicts_index_only_witness :
    (RequestCache.get expiredCache 10 "GET" "u" none).1 = none ∧
    (RequestCache.get expiredCache 10 "GET" "u" none).2.1.files =
      expiredCache.files :=
  have h := cache_get_expired_evicts_index_only expiredCache 10 "GET" "u" none
    { timestamp := 0, url := "u", method := "GET" }
    (by simp [expiredCache, expiredKey, lookupA])
    (by norm_num [expiredCache])
  ⟨h.1, h.2.2.1⟩

/-- C5: on a fresh cache with positive ttl and capacity at least one,
set followed immediately by get with the same method, url, and params
returns the stored value exactly, and get with params whose canonical
fingerprint differs returns absent (md5 is modelled as an injective
fingerprint, so logically different params means different cache-data
strings). -/
theorem cache_roundtrip (ttl : ℚ) (max_size : ℕ) (now : ℚ)
    (method url v : String) (p pd : Option (List (String × String)))
    (httl : 0 < ttl) (hsize : 1 ≤ max_size) :
    ∃ c1 ops,
      RequestCache.set
        { ttl := ttl, max_size := max_size, cache_index := [], files := [] }
        now method url v p = .ok (c1, ops) ∧
      (RequestCache.get c1 now method url p).1 = some v ∧
      (RequestCache.getCacheKey method url pd ≠ RequestCache.getCacheKey method url p →
        (RequestCache.get c1 now method url pd).1 = none) := by
  have hnotcap : ¬ (max_size ≤ ([] : List (String × CacheEntry)).length) := by
    simp only [List.length_nil]
    omega
  refine ⟨{ ttl := ttl, max_size := max_size
            cache_index := [(RequestCache.getCacheKey method url p,
              { timestamp := now, url := url, method := method })]
            files := [(payloadPath (RequestCache.getCacheKey method url p), v)] },
          [FsOp.write (payloadPath (RequestCache.getCacheKey method url p)) v,
           FsOp.write indexPath (serializeIndex
             [(RequestCache.getCacheKey method url p,
               { timestamp := now, url := url, method := method })])],
          ?_, ?_, ?_⟩
  · rw [RequestCache.set, if_neg hnotcap]
    simp [RequestCache.finishSet, updateA, RequestCache.saveIndexOps]
  · have hl : lookupA
        [(RequestCache.getCacheKey method url p,
          ({ timestamp := now, url := url, method := method } : CacheEntry))]
        (RequestCache.getCacheKey method url p) =
        some { timestamp := now, url := url, method := method } := by
      simp [lookupA]
    have hf : lookupA
        [(payloadPath (RequestCache.getCacheKey method url p), v)]
        (payloadPath (RequestCache.getCacheKey method url p)) = some v := by
      simp [lookupA]
    have hcond : now - now < ttl := by
      rw [sub_self]
      exact httl
    simp [RequestCache.get, hl, hf, hcond, httl]
  · intro hne
    have hl : lookupA
        [(RequestCache.getCacheKey method url p,
          ({ timestamp := now, url := url, method := method } : CacheEntry))]
        (RequestCache.getCacheKey method url pd) = none := by
      simp only [lookupA, List.find?]
      rw [beq_false_of_ne (Ne.symm hne)]
      rfl
    simp [RequestCache.get, hl]

/-- C5 witness: a concrete round trip with no params stored and a
one-entry params dict probed. -/
theorem cache_roundtrip_witness :
    ∃ c1 ops,
      RequestCache.set
        { ttl := 300, max_size := 1000, cache_index := [], files := [] }
        0 "GET" "u" "v" none = .ok (c1, ops) ∧
      (RequestCache.get c1 0 "GET" "u" none).1 = some "v" ∧
      (RequestCache.getCacheKey "GET" "u" (some [("a", "1")]) ≠
          RequestCache.getCacheKey "GET" "u" none →
        (RequestCache.get c1 0 "GET" "u" (some [("a", "1")])).1 = none) :=
  cache_roundtrip 300 1000 0 "GET" "u" "v" none (some [("a", "1")])
    (by norm_num) (by norm_num)

end ContextExporter
